import Mathlib

/-!
# Verification of the file-watcher ingestion pipeline (`src/main.py`)

A shallow embedding of the ingestion pipeline of the watched-directory
service: the event filter and stabilization check (`ObserverWard.try_size`),
the work queue, the worker loop (`worker`), and the SQLite result store
(`init_database`, `inserting`, `last_files`, `stats`).

Modelling conventions:
* SQLite rows of the `files` table become the structure `Row`; the table
  becomes `DB`, a list of rows in insertion order together with the
  auto-increment counter for the `id` primary key.
* Timestamps (`datetime.now().isoformat()`) are opaque; we model the clock
  reading taken at the top of `inserting` as a `Nat` passed in explicitly.
* Python `None` crossing a string-typed interface (the queue sentinel, the
  `path`/`error`/`lines` columns) is modelled with `Option`.
* File contents are `List Char`; the embedding restricts attention to
  strings of characters whose classification (digit, whitespace) agrees
  between Python's `str` methods and Lean's ASCII predicates.
* Read failures of `os.path.getsize` / `open` are supplied by oracles
  (`Option Nat` sizes, `Except String String` contents), since the real
  filesystem is outside the program.
-/

set_option autoImplicit false

namespace WatchdogMain

/-- One row of the `files` table created by `init_database`: columns
`id INTEGER PRIMARY KEY AUTOINCREMENT`, `path TEXT`, `status TEXT`,
`lines INTEGER`, `word_count INTEGER`, `error TEXT NULL`,
`created_at DATETIME`, `processed_at TEXT NULL`.  Note the schema declares
no UNIQUE or NOT NULL constraint: the only integrity constraint of the
table is the primary key on `id`. -/
structure Row where
  id : Nat
  path : Option String
  status : String
  lines : Option Nat
  word_count : Option Nat
  error : Option String
  created_at : Option Nat
  processed_at : Option Nat
  deriving DecidableEq, Repr

/-- The `files` table: rows in insertion order plus SQLite's auto-increment
counter, which always hands out an id strictly larger than any id ever
used. -/
structure DB where
  rows : List Row
  nextId : Nat
  deriving DecidableEq, Repr

/-- The state of the database right after `init_database` ran on a fresh
`files.db`: empty table, auto-increment counter at 1. -/
def db0 : DB := { rows := [], nextId := 1 }

/-- All stored ids are strictly below the auto-increment counter.  This is
an invariant SQLite maintains for `AUTOINCREMENT` columns; it holds of
`db0` and is preserved by every operation of the store. -/
def goodIds (db : DB) : Bool :=
  db.rows.all (fun r => r.id < db.nextId)

/-- Whether inserting a row with the id the auto-increment counter is about
to hand out would violate the primary-key constraint — the only constraint
of the `files` schema, hence the only way the `INSERT` in `inserting` can
raise `sqlite3.IntegrityError`. -/
def idTaken (db : DB) (i : Nat) : Bool :=
  db.rows.any (fun r => r.id == i)

/-- The `INSERT` statement of `inserting` (lines 102–106): append a fresh
row carrying the arguments, `created_at = now`, and
`processed_at = now if status == "OK" else None`. -/
def insertBranch (db : DB) (path : Option String) (status : String)
    (lines word_count : Option Nat) (error : Option String) (now : Nat) : DB :=
  { rows := db.rows ++
      [{ id := db.nextId, path := path, status := status, lines := lines,
         word_count := word_count, error := error, created_at := some now,
         processed_at := if status = "OK" then some now else none }],
    nextId := db.nextId + 1 }

/-- The `UPDATE` statement of the `except sqlite3.IntegrityError` branch of
`inserting` (lines 108–113): for every row whose `path` equals the given
path, overwrite `status`, `lines`, `word_count`, `error` and
`processed_at`; all other columns and rows are untouched. -/
def updateBranch (db : DB) (path : Option String) (status : String)
    (lines word_count : Option Nat) (error : Option String) (now : Nat) : DB :=
  { db with rows := db.rows.map (fun r =>
      if r.path = path then
        { r with status := status, lines := lines, word_count := word_count,
                 error := error,
                 processed_at := if status = "OK" then some now else none }
      else r) }

/-- `inserting(path, status, lines, word_count, error)`: read the clock,
try the `INSERT`; if and only if it raises `sqlite3.IntegrityError`
(which, with this schema, requires an `id` collision), run the `UPDATE`
fallback instead. -/
def inserting (db : DB) (path : Option String) (status : String)
    (lines word_count : Option Nat) (error : Option String) (now : Nat) : DB :=
  if idTaken db db.nextId then
    updateBranch db path status lines word_count error now
  else
    insertBranch db path status lines word_count error now

/-- Number of rows of the table whose `path` column holds `p`. -/
def rowsForPath (db : DB) (p : Option String) : Nat :=
  (db.rows.filter (fun r => r.path == p)).length

theorem goodIds_not_idTaken {db : DB} (h : goodIds db = true) :
    idTaken db db.nextId = false := by
  simp only [goodIds, List.all_eq_true, decide_eq_true_eq] at h
  simp only [idTaken, List.any_eq_false, beq_iff_eq]
  intro r hr
  exact Nat.ne_of_lt (h r hr)

/-- On a database satisfying the auto-increment invariant, `inserting`
always takes the `INSERT` branch: the `UPDATE` fallback is dead code. -/
theorem inserting_eq_insertBranch {db : DB} (path : Option String)
    (status : String) (lines word_count : Option Nat) (error : Option String)
    (now : Nat) (h : goodIds db = true) :
    inserting db path status lines word_count error now =
      insertBranch db path status lines word_count error now := by
  simp [inserting, goodIds_not_idTaken h]

theorem goodIds_insertBranch {db : DB} (path : Option String)
    (status : String) (lines word_count : Option Nat) (error : Option String)
    (now : Nat) (h : goodIds db = true) :
    goodIds (insertBranch db path status lines word_count error now) = true := by
  simp only [goodIds, insertBranch, List.all_append, List.all_eq_true,
    decide_eq_true_eq, Bool.and_eq_true] at h ⊢
  constructor
  · intro r hr
    exact Nat.lt_succ_of_lt (h r hr)
  · intro r hr
    simp only [List.mem_singleton] at hr
    subst hr
    exact Nat.lt_succ_self _

theorem goodIds_inserting {db : DB} (path : Option String) (status : String)
    (lines word_count : Option Nat) (error : Option String) (now : Nat)
    (h : goodIds db = true) :
    goodIds (inserting db path status lines word_count error now) = true := by
  rw [inserting_eq_insertBranch path status lines word_count error now h]
  exact goodIds_insertBranch path status lines word_count error now h

/-- Claim C1: the spec requires at most one row per path (upsert
semantics), but the `files` schema has no UNIQUE constraint on `path`, so
the `INSERT` of `inserting` never raises `sqlite3.IntegrityError` for a
repeated path and the `UPDATE` fallback never runs: calling the store
twice for the same path leaves two rows for that path. -/
theorem upsert_same_path_creates_duplicate :
    rowsForPath
      (inserting
        (inserting db0 (some "test_1.txt") "OK" (some 2) (some 0) none 0)
        (some "test_1.txt") "FAILED" none none (some "boom") 1)
      (some "test_1.txt") = 2 := by
  decide

/-- Claim C9: the `UPDATE` branch of `inserting` leaves every row's `id`,
`path` and `created_at` unchanged (and changes no row count); only
`status`, `lines`, `word_count`, `error` and `processed_at` are written. -/
theorem update_branch_preserves_identity (db : DB) (path : Option String)
    (status : String) (lines word_count : Option Nat) (error : Option String)
    (now : Nat) :
    (updateBranch db path status lines word_count error now).rows.length =
      db.rows.length ∧
    ∀ i (h : i < db.rows.length)
      (h' : i < (updateBranch db path status lines word_count error now).rows.length),
      ((updateBranch db path status lines word_count error now).rows.get ⟨i, h'⟩).id =
          (db.rows.get ⟨i, h⟩).id ∧
      ((updateBranch db path status lines word_count error now).rows.get ⟨i, h'⟩).path =
          (db.rows.get ⟨i, h⟩).path ∧
      ((updateBranch db path status lines word_count error now).rows.get ⟨i, h'⟩).created_at =
          (db.rows.get ⟨i, h⟩).created_at := by
  refine ⟨by simp [updateBranch], ?_⟩
  intro i h h'
  simp only [updateBranch, List.get_eq_getElem, List.getElem_map]
  by_cases hp : (db.rows.get ⟨i, h⟩).path = path <;>
    simp [List.get_eq_getElem] at hp <;> simp [hp]

/-- Witness for C9 at a concrete one-row database. -/
theorem update_branch_preserves_identity_witness :
    (updateBranch
        { rows := [{ id := 1, path := some "test_1.txt", status := "OK",
                     lines := some 2, word_count := some 0, error := none,
                     created_at := some 0, processed_at := some 0 }], nextId := 2 }
        (some "test_1.txt") "FAILED" none none (some "gone") 5).rows.length = 1 ∧
    ∀ i (h : i < ([{ id := 1, path := some "test_1.txt", status := "OK",
                     lines := some 2, word_count := some 0, error := none,
                     created_at := some 0, processed_at := some 0 }] : List Row).length)
      (h' : i < (updateBranch
        { rows := [{ id := 1, path := some "test_1.txt", status := "OK",
                     lines := some 2, word_count := some 0, error := none,
                     created_at := some 0, processed_at := some 0 }], nextId := 2 }
        (some "test_1.txt") "FAILED" none none (some "gone") 5).rows.length),
      ((updateBranch
        { rows := [{ id := 1, path := some "test_1.txt", status := "OK",
                     lines := some 2, word_count := some 0, error := none,
                     created_at := some 0, processed_at := some 0 }], nextId := 2 }
        (some "test_1.txt") "FAILED" none none (some "gone") 5).rows.get ⟨i, h'⟩).id =
          ((([{ id := 1, path := some "test_1.txt", status := "OK",
                     lines := some 2, word_count := some 0, error := none,
                     created_at := some 0, processed_at := some 0 }] : List Row)).get ⟨i, h⟩).id ∧
      ((updateBranch
        { rows := [{ id := 1, path := some "test_1.txt", status := "OK",
                     lines := some 2, word_count := some 0, error := none,
                     created_at := some 0, processed_at := some 0 }], nextId := 2 }
        (some "test_1.txt") "FAILED" none none (some "gone") 5).rows.get ⟨i, h'⟩).path =
          ((([{ id := 1, path := some "test_1.txt", status := "OK",
                     lines := some 2, word_count := some 0, error := none,
                     created_at := some 0, processed_at := some 0 }] : List Row)).get ⟨i, h⟩).path ∧
      ((updateBranch
        { rows := [{ id := 1, path := some "test_1.txt", status := "OK",
                     lines := some 2, word_count := some 0, error := none,
                     created_at := some 0, processed_at := some 0 }], nextId := 2 }
        (some "test_1.txt") "FAILED" none none (some "gone") 5).rows.get ⟨i, h'⟩).created_at =
          ((([{ id := 1, path := some "test_1.txt", status := "OK",
                     lines := some 2, word_count := some 0, error := none,
                     created_at := some 0, processed_at := some 0 }] : List Row)).get ⟨i, h⟩).created_at :=
  update_branch_preserves_identity
    { rows := [{ id := 1, path := some "test_1.txt", status := "OK",
                 lines := some 2, word_count := some 0, error := none,
                 created_at := some 0, processed_at := some 0 }], nextId := 2 }
    (some "test_1.txt") "FAILED" none none (some "gone") 5

/-- Claim C10: the `INSERT` branch evaluates `datetime.now()` once, so a
freshly inserted `OK` row has `created_at = processed_at` (both the single
`now`), and a freshly inserted `FAILED` row has `created_at` set and
`processed_at` null. -/
theorem insert_branch_timestamps (db : DB) (path : Option String)
    (lines word_count : Option Nat) (error : Option String) (now : Nat)
    (h : goodIds db = true) :
    (inserting db path "OK" lines word_count error now).rows =
      db.rows ++
        [{ id := db.nextId, path := path, status := "OK", lines := lines,
           word_count := word_count, error := error, created_at := some now,
           processed_at := some now }] ∧
    (inserting db path "FAILED" lines word_count error now).rows =
      db.rows ++
        [{ id := db.nextId, path := path, status := "FAILED", lines := lines,
           word_count := word_count, error := error, created_at := some now,
           processed_at := none }] := by
  rw [inserting_eq_insertBranch path "OK" lines word_count error now h,
    inserting_eq_insertBranch path "FAILED" lines word_count error now h]
  constructor <;> simp [insertBranch]

/-- Witness for C10 at the freshly initialised database. -/
theorem insert_branch_timestamps_witness :
    (inserting db0 (some "test_1.txt") "OK" (some 2) (some 0) none 7).rows =
      db0.rows ++
        [{ id := db0.nextId, path := some "test_1.txt", status := "OK",
           lines := some 2, word_count := some 0, error := none,
           created_at := some 7, processed_at := some 7 }] ∧
    (inserting db0 (some "test_1.txt") "FAILED" (some 2) (some 0) none 7).rows =
      db0.rows ++
        [{ id := db0.nextId, path := some "test_1.txt", status := "FAILED",
           lines := some 2, word_count := some 0, error := none,
           created_at := some 7, processed_at := none }] :=
  insert_branch_timestamps db0 (some "test_1.txt") (some 2) (some 0) none 7 rfl

/-! ## Python text operations used by the worker

The worker body (lines 160–162) is
`lines = len(f.readlines())` followed by `word_count = len(f.read().split())`
on the same open file handle, so the handle's position matters: we model a
text handle as content plus a read position. -/

/-- `f.readlines()` line splitting: cut after every `'\n'`; a trailing
fragment with no terminator still counts as one line. -/
def pyReadlinesAux : List Char → List Char → List (List Char)
  | [], acc => if acc.isEmpty then [] else [acc.reverse]
  | c :: rest, acc =>
    if c = '\n' then (c :: acc).reverse :: pyReadlinesAux rest []
    else pyReadlinesAux rest (c :: acc)

/-- The list of lines `f.readlines()` produces from the given text. -/
def pyReadlinesList (cs : List Char) : List (List Char) :=
  pyReadlinesAux cs []

/-- ASCII whitespace as recognised by `str.split()` with no argument. -/
def isPySpace (c : Char) : Bool :=
  c == ' ' || c == '\t' || c == '\n' || c == '\r' || c == '\x0b' || c == '\x0c'

/-- `str.split()` with no argument: maximal runs of non-whitespace, with
no empty tokens. -/
def pySplitAux : List Char → List Char → List (List Char)
  | [], acc => if acc.isEmpty then [] else [acc.reverse]
  | c :: rest, acc =>
    if isPySpace c then
      if acc.isEmpty then pySplitAux rest []
      else acc.reverse :: pySplitAux rest []
    else pySplitAux rest (c :: acc)

/-- The token list of `str.split()` on the given text. -/
def pySplit (cs : List Char) : List (List Char) :=
  pySplitAux cs []

/-- A Python text file handle: the file's content and the current read
position. -/
structure PyFile where
  content : List Char
  pos : Nat
  deriving DecidableEq, Repr

/-- `f.readlines()`: return the lines from the current position on and
leave the handle positioned at end-of-file. -/
def PyFile.readlines (f : PyFile) : List (List Char) × PyFile :=
  (pyReadlinesList (f.content.drop f.pos), { f with pos := f.content.length })

/-- `f.read()`: return the text from the current position on and leave the
handle positioned at end-of-file. -/
def PyFile.readToEnd (f : PyFile) : List Char × PyFile :=
  (f.content.drop f.pos, { f with pos := f.content.length })

/-- The worker's per-file computation (lines 160–162): open the handle at
position 0, count `f.readlines()`, then count `f.read().split()` on the
same handle.  Returns `(lines, word_count)`. -/
def processFile (content : List Char) : Nat × Nat :=
  let f0 : PyFile := { content := content, pos := 0 }
  let rl := f0.readlines
  let lineCount := rl.1.length
  let rd := rl.2.readToEnd
  let wordCount := (pySplit rd.1).length
  (lineCount, wordCount)

/-- `str(TypeError)` raised by `open(None, 'r', encoding='utf-8')` when the
shutdown sentinel reaches the worker. -/
def openNoneMessage : String :=
  "expected str, bytes or os.PathLike object, not NoneType"

/-- One pass of the worker loop body for a dequeued item (lines 158–171).
The filesystem is an oracle mapping a path to its content or to the message
of the exception `open`/`read` raises.  The returned flag is whether the
loop continues: every branch of the body ends in `continue` or falls
through to the next iteration, so it is `true` in all cases. -/
def workerStep (fs : String → Except String String) (item : Option String)
    (db : DB) (now : Nat) : DB × Bool :=
  match item with
  | none =>
    (inserting db none "FAILED" none none (some openNoneMessage) now, true)
  | some p =>
    match fs p with
    | Except.error msg =>
      (inserting db (some p) "FAILED" none none (some msg) now, true)
    | Except.ok content =>
      let lw := processFile content.data
      (inserting db (some p) "OK" (some lw.1) (some lw.2) none now, true)

/-- Claim C2: processing the stable file `test_1.txt` with content
`"a b\nc\n"` records `lines = 2` but `word_count = 0`, not the 3 the spec
requires: `f.read()` runs after `f.readlines()` exhausted the handle, so
the tokens are counted on the empty string. -/
theorem worker_word_count_is_zero :
    (workerStep (fun _ => Except.ok "a b\nc\n") (some "test_1.txt") db0 7).1.rows =
      [{ id := 1, path := some "test_1.txt", status := "OK", lines := some 2,
         word_count := some 0, error := none, created_at := some 7,
         processed_at := some 7 }] ∧
    processFile "a b\nc\n".data = (2, 0) ∧
    (pySplit "a b\nc\n".data).length = 3 := by
  decide

/-- Claim C3: the worker loop has no sentinel check.  No dequeued item —
the `None` sentinel included — makes the loop exit, and on the sentinel the
body treats `None` as a path: `open(None)` raises `TypeError`, the
`except` branch records a FAILED row with NULL path, and the loop
continues instead of terminating. -/
theorem worker_never_exits_on_sentinel (fs : String → Except String String)
    (db : DB) (now : Nat) (h : goodIds db = true) :
    (∀ item, (workerStep fs item db now).2 = true) ∧
    (workerStep fs none db now).1.rows =
      db.rows ++
        [{ id := db.nextId, path := none, status := "FAILED", lines := none,
           word_count := none, error := some openNoneMessage,
           created_at := some now, processed_at := none }] := by
  constructor
  · intro item
    cases item with
    | none => rfl
    | some p => cases hfs : fs p <;> simp [workerStep, hfs]
  · show (inserting db none "FAILED" none none (some openNoneMessage) now).rows = _
    rw [inserting_eq_insertBranch none "FAILED" none none (some openNoneMessage) now h]
    simp [insertBranch]

/-- Witness for C3 at the freshly initialised database. -/
theorem worker_never_exits_on_sentinel_witness :
    goodIds db0 = true ∧
    ((∀ item, (workerStep (fun _ => Except.error "gone") item db0 3).2 = true) ∧
      (workerStep (fun _ => Except.error "gone") none db0 3).1.rows =
        db0.rows ++
          [{ id := db0.nextId, path := none, status := "FAILED", lines := none,
             word_count := none, error := some openNoneMessage,
             created_at := some 3, processed_at := none }]) :=
  ⟨rfl, worker_never_exits_on_sentinel (fun _ => Except.error "gone") db0 3 rfl⟩

/-! ## Event filter and stabilization check (`ObserverWard`) -/

/-- `os.path.basename`: everything after the last `'/'` (POSIX). -/
def basename (p : String) : String :=
  String.mk ((p.data.reverse.takeWhile (fun c => c ≠ '/')).reverse)

/-- Whether a string is exactly `test_`, one or more digits, `.txt` — the
body of the pattern `test_\d+\.txt`.  Since `'.'` is not a digit, the
greedy `\d+` needs no backtracking.  (`\d` also covers non-ASCII Unicode
decimal digits in Python; the embedding restricts strings to characters on
which the ASCII reading agrees.) -/
def matchesCore (s : List Char) : Bool :=
  match s with
  | 't' :: 'e' :: 's' :: 't' :: '_' :: rest =>
    decide (0 < (rest.takeWhile Char.isDigit).length) &&
      rest.drop (rest.takeWhile Char.isDigit).length == ".txt".data
  | _ => false

/-- `re.match(r'^test_\d+\.txt$', s)` as a Boolean (line 53).  In Python,
`$` (without `re.MULTILINE`) matches at the end of the string **or just
before a newline at the end of the string**, so a name consisting of the
core pattern plus one trailing `'\n'` is also accepted. -/
def pyRegexAccepts (s : List Char) : Bool :=
  matchesCore s ||
    (match s.getLast? with
     | some '\n' => matchesCore s.dropLast
     | _ => false)

/-- Modelled from the spec's words, for comparison with `pyRegexAccepts`
in claim C4: the base filename is the literal prefix `test_`, one or more
decimal digits, and the literal suffix `.txt`, with nothing following. -/
def specEligibleName (s : List Char) : Bool :=
  match s with
  | 't' :: 'e' :: 's' :: 't' :: '_' :: rest =>
    decide (0 < (rest.takeWhile Char.isDigit).length) &&
      rest.drop (rest.takeWhile Char.isDigit).length == ".txt".data
  | _ => false

/-- A raw watchdog filesystem notification. -/
inductive FsEvent where
  | created (isDir : Bool) (src : String)
  | moved (isDir : Bool) (src dest : String)
  | deleted (isDir : Bool) (src : String)

/-- `ObserverWard.try_size` (lines 52–70): reject a non-matching base
name; read the size, sleep, read the size again (`s1`, `s2` are the two
`os.path.getsize` oracle readings, `none` meaning `OSError`); on any
`OSError` or on a size change, return without enqueueing; otherwise append
the path to the work queue. -/
def try_size (s1 s2 : Option Nat) (q : List (Option String)) (path : String) :
    List (Option String) :=
  if pyRegexAccepts (basename path).data then
    match s1, s2 with
    | some startSize, some endSize =>
      if startSize ≠ endSize then q else q ++ [some path]
    | _, _ => q
  else q

/-- `ObserverWard`'s dispatch (lines 39–50): `on_created` runs `try_size`
on the source path of non-directory events, `on_moved` on the destination
path of non-directory events, and `on_deleted` only prints. -/
def handleEvent (s1 s2 : Option Nat) (e : FsEvent) (q : List (Option String)) :
    List (Option String) :=
  match e with
  | FsEvent.created isDir src => if isDir then q else try_size s1 s2 q src
  | FsEvent.moved isDir _ dest => if isDir then q else try_size s1 s2 q dest
  | FsEvent.deleted _ _ => q

/-- The shared mutable state of the program: the work queue
(`file_queue`, FIFO, entries are paths or the `None` sentinel) and the
SQLite store. -/
structure Sys where
  q : List (Option String)
  db : DB
  deriving Repr

/-- One atomic step of the system: a filesystem notification handled by
`ObserverWard` (with its two size readings), one worker-loop pass
consuming the queue head (with its filesystem oracle and clock reading),
or the shutdown block's `file_queue.put(None)`. -/
inductive SysStep where
  | fsevent (s1 s2 : Option Nat) (e : FsEvent)
  | work (fs : String → Except String String) (now : Nat)
  | shutdownSignal

/-- The transition function of the system. -/
def stepSys (st : SysStep) (sys : Sys) : Sys :=
  match st with
  | SysStep.fsevent s1 s2 e => { sys with q := handleEvent s1 s2 e sys.q }
  | SysStep.work fs now =>
    match sys.q with
    | [] => sys
    | item :: rest => { q := rest, db := (workerStep fs item sys.db now).1 }
  | SysStep.shutdownSignal => { sys with q := sys.q ++ [none] }

/-- The initial state: empty queue, freshly initialised database. -/
def sys0 : Sys := { q := [], db := db0 }

/-- Run a list of steps from a given state. -/
def runFrom (steps : List SysStep) (sys : Sys) : Sys :=
  steps.foldl (fun s st => stepSys st s) sys

/-- Run a list of steps from the initial state. -/
def runSys (steps : List SysStep) : Sys :=
  runFrom steps sys0

/-- A queue entry is the sentinel or a path whose base name passes the
event filter. -/
def pathOk (x : Option String) : Bool :=
  match x with
  | none => true
  | some p => pyRegexAccepts (basename p).data

/-- Trace invariant: every queued entry and every stored row's path passes
`pathOk`. -/
def sysInv (sys : Sys) : Bool :=
  sys.q.all pathOk && sys.db.rows.all (fun r => pathOk r.path)

theorem try_size_all (s1 s2 : Option Nat) (q : List (Option String))
    (path : String) (h : q.all pathOk = true) :
    (try_size s1 s2 q path).all pathOk = true := by
  unfold try_size
  cases hm : pyRegexAccepts (basename path).data with
  | false => simpa [hm] using h
  | true =>
    simp only [hm, if_true]
    cases s1 with
    | none => exact h
    | some a =>
      cases s2 with
      | none => exact h
      | some b =>
        by_cases hab : a ≠ b
        · simpa [hab] using h
        · simp [hab, List.all_append, h, pathOk, hm]

theorem handleEvent_all (s1 s2 : Option Nat) (e : FsEvent)
    (q : List (Option String)) (h : q.all pathOk = true) :
    (handleEvent s1 s2 e q).all pathOk = true := by
  cases e with
  | created isDir src =>
    cases isDir with
    | false => exact try_size_all s1 s2 q src h
    | true => exact h
  | moved isDir src dest =>
    cases isDir with
    | false => exact try_size_all s1 s2 q dest h
    | true => exact h
  | deleted isDir src => exact h

theorem mem_inserting_path (db : DB) (path : Option String) (status : String)
    (lines word_count : Option Nat) (error : Option String) (now : Nat)
    (r : Row) (hr : r ∈ (inserting db path status lines word_count error now).rows) :
    r.path = path ∨ ∃ r0 ∈ db.rows, r.path = r0.path := by
  unfold inserting at hr
  split at hr
  · simp only [updateBranch, List.mem_map] at hr
    obtain ⟨r0, hr0, hfr⟩ := hr
    refine Or.inr ⟨r0, hr0, ?_⟩
    subst hfr
    by_cases hp : r0.path = path <;> simp [hp]
  · simp only [insertBranch, List.mem_append, List.mem_singleton] at hr
    rcases hr with hr | hr
    · exact Or.inr ⟨r, hr, rfl⟩
    · subst hr
      exact Or.inl rfl

theorem inserting_rows_pathOk (db : DB) (path : Option String)
    (status : String) (lines word_count : Option Nat) (error : Option String)
    (now : Nat) (hdb : db.rows.all (fun r => pathOk r.path) = true)
    (hp : pathOk path = true) :
    (inserting db path status lines word_count error now).rows.all
      (fun r => pathOk r.path) = true := by
  rw [List.all_eq_true] at hdb ⊢
  intro r hr
  rcases mem_inserting_path db path status lines word_count error now r hr with
    h | ⟨r0, hr0, hpath⟩
  · simpa [h] using hp
  · simpa [hpath] using hdb r0 hr0

theorem sysInv_step (st : SysStep) (sys : Sys) (h : sysInv sys = true) :
    sysInv (stepSys st sys) = true := by
  rw [sysInv, Bool.and_eq_true] at h
  obtain ⟨hq, hdb⟩ := h
  cases st with
  | fsevent s1 s2 e =>
    simp only [stepSys, sysInv, Bool.and_eq_true]
    exact ⟨handleEvent_all s1 s2 e sys.q hq, hdb⟩
  | work fs now =>
    simp only [stepSys]
    cases hsq : sys.q with
    | nil =>
      simp only [sysInv, Bool.and_eq_true]
      exact ⟨hq, hdb⟩
    | cons item rest =>
      rw [hsq, List.all_cons, Bool.and_eq_true] at hq
      obtain ⟨hitem, hrest⟩ := hq
      simp only [sysInv, Bool.and_eq_true]
      refine ⟨hrest, ?_⟩
      cases item with
      | none =>
        exact inserting_rows_pathOk sys.db none "FAILED" none none
          (some openNoneMessage) now hdb rfl
      | some p =>
        cases hfs : fs p with
        | error msg =>
          simpa [workerStep, hfs] using
            inserting_rows_pathOk sys.db (some p) "FAILED" none none
              (some msg) now hdb hitem
        | ok content =>
          simpa [workerStep, hfs] using
            inserting_rows_pathOk sys.db (some p) "OK"
              (some (processFile content.data).1)
              (some (processFile content.data).2) none now hdb hitem
  | shutdownSignal =>
    have hn : [(none : Option String)].all pathOk = true := rfl
    simp only [stepSys, sysInv, Bool.and_eq_true, List.all_append]
    exact ⟨⟨hq, hn⟩, hdb⟩

theorem sysInv_runFrom (steps : List SysStep) (sys : Sys)
    (h : sysInv sys = true) : sysInv (runFrom steps sys) = true := by
  induction steps generalizing sys with
  | nil => exact h
  | cons st rest ih => exact ih (stepSys st sys) (sysInv_step st sys h)

/-- Claim C4 (amended): for every path whose base name fails the Python
filter `re.match(r'^test_\d+\.txt$', ...)` — i.e. is not
`test_<digits>.txt` optionally followed by one trailing newline — no run
of the system ever enqueues the path or stores a row for it. -/
theorem filter_blocks_nonmatching (steps : List SysStep) (p : String)
    (h : pyRegexAccepts (basename p).data = false) :
    some p ∉ (runSys steps).q ∧
    ∀ r ∈ (runSys steps).db.rows, r.path ≠ some p := by
  have hinv : sysInv (runSys steps) = true :=
    sysInv_runFrom steps sys0 rfl
  rw [sysInv, Bool.and_eq_true, List.all_eq_true, List.all_eq_true] at hinv
  obtain ⟨hq, hdb⟩ := hinv
  constructor
  · intro hmem
    have := hq (some p) hmem
    rw [pathOk] at this
    rw [h] at this
    exact Bool.false_ne_true this
  · intro r hr hrp
    have := hdb r hr
    rw [hrp, pathOk] at this
    rw [h] at this
    exact Bool.false_ne_true this

/-- Witness for the amended C4: the non-matching name `notes.txt` is never
enqueued nor recorded. -/
theorem filter_blocks_nonmatching_witness :
    pyRegexAccepts (basename "notes.txt").data = false ∧
    (some "notes.txt" ∉
        (runSys [SysStep.fsevent (some 5) (some 5)
          (FsEvent.created false "notes.txt")]).q ∧
      ∀ r ∈ (runSys [SysStep.fsevent (some 5) (some 5)
          (FsEvent.created false "notes.txt")]).db.rows,
        r.path ≠ some "notes.txt") :=
  ⟨by decide,
    filter_blocks_nonmatching
      [SysStep.fsevent (some 5) (some 5) (FsEvent.created false "notes.txt")]
      "notes.txt" (by decide)⟩

/-- Counterexample to C4 as stated: Python's `$` also matches just before
a trailing newline, so the base name made of `test_1.txt` plus one
trailing newline — which does *not* match the spec's pattern — passes the
filter and is enqueued by a created event with stable sizes. -/
theorem filter_accepts_trailing_newline :
    specEligibleName (basename "test_1.txt\n").data = false ∧
    some "test_1.txt\n" ∈
      (runSys [SysStep.fsevent (some 5) (some 5)
        (FsEvent.created false "test_1.txt\n")]).q := by
  decide

/-- Claim C5: when the two size readings of the stabilization check both
succeed and differ, the event is abandoned: the whole system state is
unchanged — nothing is enqueued, no row is written, nothing is scheduled.
Both event kinds that reach `try_size` are covered. -/
theorem stabilization_abandons_on_size_change (a b : Nat) (src p : String)
    (sys : Sys) (he : pyRegexAccepts (basename p).data = true) (hab : a ≠ b) :
    stepSys (SysStep.fsevent (some a) (some b) (FsEvent.created false p)) sys =
      sys ∧
    stepSys (SysStep.fsevent (some a) (some b) (FsEvent.moved false src p)) sys =
      sys := by
  constructor <;> simp [stepSys, handleEvent, try_size, he, hab]

/-- Witness for C5: `test_2.txt` growing from 5 to 9 bytes across the
quiescence window is not enqueued. -/
theorem stabilization_abandons_on_size_change_witness :
    pyRegexAccepts (basename "test_2.txt").data = true ∧ (5 : Nat) ≠ 9 ∧
    (stepSys (SysStep.fsevent (some 5) (some 9)
        (FsEvent.created false "test_2.txt")) sys0 = sys0 ∧
      stepSys (SysStep.fsevent (some 5) (some 9)
        (FsEvent.moved false "old" "test_2.txt")) sys0 = sys0) :=
  ⟨by decide, by decide,
    stabilization_abandons_on_size_change 5 9 "old" "test_2.txt" sys0
      (by decide) (by decide)⟩

/-- Claim C6: a dequeued path whose open/read raises is recorded as a
FAILED row carrying the failure message, with `lines`, `word_count` and
`processed_at` NULL; the entry is consumed from the queue (acknowledged)
and nothing is re-enqueued. -/
theorem worker_failure_records_failed (fs : String → Except String String)
    (p msg : String) (rest : List (Option String)) (db : DB) (now : Nat)
    (hgood : goodIds db = true) (hfs : fs p = Except.error msg) :
    stepSys (SysStep.work fs now) { q := some p :: rest, db := db } =
      { q := rest,
        db := { rows := db.rows ++
                  [{ id := db.nextId, path := some p, status := "FAILED",
                     lines := none, word_count := none, error := some msg,
                     created_at := some now, processed_at := none }],
                nextId := db.nextId + 1 } } := by
  simp only [stepSys, workerStep, hfs]
  rw [inserting_eq_insertBranch (some p) "FAILED" none none (some msg) now hgood]
  simp [insertBranch]

/-- Witness for C6: `test_3.txt` deleted before the worker opens it is
recorded FAILED with the file-not-found message and NULL counts. -/
theorem worker_failure_records_failed_witness :
    goodIds db0 = true ∧
    (fun _ : String =>
        (Except.error "No such file or directory" : Except String String))
      "test_3.txt" = Except.error "No such file or directory" ∧
    stepSys
        (SysStep.work
          (fun _ => Except.error "No such file or directory") 4)
        { q := [some "test_3.txt"], db := db0 } =
      { q := [],
        db := { rows := db0.rows ++
                  [{ id := db0.nextId, path := some "test_3.txt",
                     status := "FAILED", lines := none, word_count := none,
                     error := some "No such file or directory",
                     created_at := some 4, processed_at := none }],
                nextId := db0.nextId + 1 } } :=
  ⟨rfl, rfl,
    worker_failure_records_failed
      (fun _ => Except.error "No such file or directory") "test_3.txt"
      "No such file or directory" [] db0 4 rfl rfl⟩

/-! ## Status queries (`last_files`, `stats`) -/

/-- Insert a row into a list that is sorted by descending `id`. -/
def insertByIdDesc (r : Row) : List Row → List Row
  | [] => [r]
  | x :: xs => if x.id ≤ r.id then r :: x :: xs else x :: insertByIdDesc r xs

/-- Sort rows by descending `id` — the semantics of `ORDER BY id DESC`. -/
def sortByIdDesc : List Row → List Row
  | [] => []
  | r :: rs => insertByIdDesc r (sortByIdDesc rs)

/-- `last_files(limit)` (lines 118–138):
`SELECT ... FROM files ORDER BY id DESC LIMIT ?`, each row rendered as a
record of all seven columns with NULLs kept as `none`. -/
def last_files (db : DB) (limit : Nat) : List Row :=
  (sortByIdDesc db.rows).take limit

/-- Ids strictly increase along the stored row list.  This holds of every
reachable table state: rows are only ever appended carrying the fresh
auto-increment id (cf. `inserting_eq_insertBranch`), so position order,
id order and write order coincide. -/
def sortedIds : List Row → Bool
  | [] => true
  | [_] => true
  | a :: b :: t => decide (a.id < b.id) && sortedIds (b :: t)

theorem sortedIds_tail {a : Row} {l : List Row}
    (h : sortedIds (a :: l) = true) : sortedIds l = true := by
  cases l with
  | nil => rfl
  | cons b t =>
    rw [sortedIds, Bool.and_eq_true] at h
    exact h.2

theorem sortedIds_head_lt {a : Row} {l : List Row}
    (h : sortedIds (a :: l) = true) : ∀ x ∈ l, a.id < x.id := by
  induction l generalizing a with
  | nil => intro x hx; cases hx
  | cons b t ih =>
    rw [sortedIds, Bool.and_eq_true, decide_eq_true_eq] at h
    intro x hx
    rcases List.mem_cons.mp hx with hx | hx
    · rw [hx]; exact h.1
    · exact Nat.lt_trans h.1 (ih h.2 x hx)

theorem insertByIdDesc_all_lt (r : Row) (l : List Row)
    (h : ∀ x ∈ l, r.id < x.id) : insertByIdDesc r l = l ++ [r] := by
  induction l with
  | nil => rfl
  | cons x xs ih =>
    have hx : r.id < x.id := h x (List.mem_cons_self x xs)
    rw [insertByIdDesc, if_neg (Nat.not_le.mpr hx)]
    rw [ih (fun y hy => h y (List.mem_cons_of_mem x hy))]
    rfl

theorem sortByIdDesc_eq_reverse (l : List Row) (h : sortedIds l = true) :
    sortByIdDesc l = l.reverse := by
  induction l with
  | nil => rfl
  | cons r rs ih =>
    rw [sortByIdDesc, ih (sortedIds_tail h)]
    rw [insertByIdDesc_all_lt r rs.reverse
      (fun x hx => sortedIds_head_lt h x (List.mem_reverse.mp hx))]
    simp

theorem sortedIds_pairwise {l : List Row} (h : sortedIds l = true) :
    l.Pairwise (fun a b => a.id < b.id) := by
  induction l with
  | nil => exact List.Pairwise.nil
  | cons a t ih =>
    exact List.Pairwise.cons (sortedIds_head_lt h) (ih (sortedIds_tail h))

/-- Claim C7: `last_files` returns at most `limit` rows; they are ordered
by descending `id` — which on reachable states is descending order of
insertion-or-update, since every write appends a row with a fresh larger
id — they are rows of the table carrying all columns, and when the table
is nonempty a query with limit 1 returns exactly the most recently
written row. -/
theorem last_files_recent_desc (db : DB) (n : Nat)
    (h : sortedIds db.rows = true) :
    (last_files db n).length ≤ n ∧
    (last_files db n).Pairwise (fun a b => b.id < a.id) ∧
    (∀ r ∈ last_files db n, r ∈ db.rows) ∧
    (∀ pre last, db.rows = pre ++ [last] → last_files db 1 = [last]) := by
  have hrev : sortByIdDesc db.rows = db.rows.reverse :=
    sortByIdDesc_eq_reverse db.rows h
  refine ⟨?_, ?_, ?_, ?_⟩
  · rw [last_files, hrev, List.length_take]
    exact Nat.min_le_left n db.rows.reverse.length
  · rw [last_files, hrev]
    have hp : db.rows.reverse.Pairwise (fun a b => b.id < a.id) :=
      List.pairwise_reverse.mpr (sortedIds_pairwise h)
    exact hp.sublist (List.take_sublist n db.rows.reverse)
  · intro r hr
    rw [last_files, hrev] at hr
    exact List.mem_reverse.mp ((List.take_sublist _ _).mem hr)
  · intro pre last hsplit
    rw [last_files, hrev, hsplit]
    simp

/-- The scenario of C7: two stable files are observed and processed, so
the table holds two rows. -/
def twoFilesRun : Sys :=
  runSys
    [SysStep.fsevent (some 4) (some 4) (FsEvent.created false "test_1.txt"),
     SysStep.fsevent (some 2) (some 2) (FsEvent.created false "test_4.txt"),
     SysStep.work (fun _ => Except.ok "a b\nc\n") 10,
     SysStep.work (fun _ => Except.ok "x\n") 11]

/-- Witness for C7: after the two-file scenario a query with limit 1
returns exactly the most recently written record. -/
theorem last_files_recent_desc_witness :
    sortedIds twoFilesRun.db.rows = true ∧
    ((last_files twoFilesRun.db 1).length ≤ 1 ∧
      (last_files twoFilesRun.db 1).Pairwise (fun a b => b.id < a.id) ∧
      (∀ r ∈ last_files twoFilesRun.db 1, r ∈ twoFilesRun.db.rows) ∧
      (∀ pre last, twoFilesRun.db.rows = pre ++ [last] →
        last_files twoFilesRun.db 1 = [last])) :=
  ⟨by decide, last_files_recent_desc twoFilesRun.db 1 (by decide)⟩

/-- The output of `stats()` (lines 141–151). -/
structure StatsOut where
  total : Nat
  ok : Nat
  failed : Nat
  deriving DecidableEq, Repr

/-- `stats()`: `COUNT(*)`, `COUNT` of rows with status `OK`, `COUNT` of
rows with status `FAILED`. -/
def stats (db : DB) : StatsOut :=
  { total := db.rows.length,
    ok := (db.rows.filter (fun r => r.status == "OK")).length,
    failed := (db.rows.filter (fun r => r.status == "FAILED")).length }

/-- The argument tuple of one `inserting` call, including the clock
reading it takes. -/
structure UpsertArgs where
  path : Option String
  status : String
  lines : Option Nat
  word_count : Option Nat
  error : Option String
  now : Nat

/-- Run a sequence of `inserting` calls against the store. -/
def applyUpserts (db : DB) (us : List UpsertArgs) : DB :=
  us.foldl
    (fun d u => inserting d u.path u.status u.lines u.word_count u.error u.now)
    db

theorem mem_inserting_status (db : DB) (path : Option String) (status : String)
    (lines word_count : Option Nat) (error : Option String) (now : Nat)
    (r : Row) (hr : r ∈ (inserting db path status lines word_count error now).rows) :
    r.status = status ∨ ∃ r0 ∈ db.rows, r.status = r0.status := by
  unfold inserting at hr
  split at hr
  · simp only [updateBranch, List.mem_map] at hr
    obtain ⟨r0, hr0, hfr⟩ := hr
    subst hfr
    by_cases hp : r0.path = path
    · simp [hp]
    · exact Or.inr ⟨r0, hr0, by simp [hp]⟩
  · simp only [insertBranch, List.mem_append, List.mem_singleton] at hr
    rcases hr with hr | hr
    · exact Or.inr ⟨r, hr, rfl⟩
    · subst hr
      exact Or.inl rfl

theorem length_eq_filter_ok_add_failed (rs : List Row)
    (h : ∀ r ∈ rs, r.status = "OK" ∨ r.status = "FAILED") :
    rs.length = (rs.filter (fun r => r.status == "OK")).length +
      (rs.filter (fun r => r.status == "FAILED")).length := by
  induction rs with
  | nil => rfl
  | cons r t ih =>
    have ht := ih (fun x hx => h x (List.mem_cons_of_mem r hx))
    rcases h r (List.mem_cons_self r t) with hs | hs <;>
      simp [List.filter_cons, hs, ht] <;> omega

theorem applyUpserts_status (db : DB) (us : List UpsertArgs)
    (hdb : ∀ r ∈ db.rows, r.status = "OK" ∨ r.status = "FAILED")
    (hus : ∀ u ∈ us, u.status = "OK" ∨ u.status = "FAILED") :
    ∀ r ∈ (applyUpserts db us).rows, r.status = "OK" ∨ r.status = "FAILED" := by
  induction us generalizing db with
  | nil => exact hdb
  | cons u t ih =>
    refine ih _ ?_ (fun v hv => hus v (List.mem_cons_of_mem u hv))
    intro r hr
    rcases mem_inserting_status db u.path u.status u.lines u.word_count
        u.error u.now r hr with hs | ⟨r0, hr0, he⟩
    · rw [hs]; exact hus u (List.mem_cons_self u t)
    · rw [he]; exact hdb r0 hr0

/-- Claim C8: after any sequence of `inserting` calls whose statuses are
all `OK` or `FAILED`, starting from the freshly initialised database, the
aggregate counts satisfy `total = ok + failed`. -/
theorem stats_total_eq_ok_add_failed (us : List UpsertArgs)
    (h : ∀ u ∈ us, u.status = "OK" ∨ u.status = "FAILED") :
    (stats (applyUpserts db0 us)).total =
      (stats (applyUpserts db0 us)).ok +
        (stats (applyUpserts db0 us)).failed := by
  have hall := applyUpserts_status db0 us
    (fun r hr => absurd hr (List.not_mem_nil r)) h
  exact length_eq_filter_ok_add_failed (applyUpserts db0 us).rows hall

/-- Witness for C8 on a concrete three-upsert sequence with one repeated
path. -/
theorem stats_total_eq_ok_add_failed_witness :
    (∀ u ∈ [({ path := some "test_1.txt", status := "OK", lines := some 2,
               word_count := some 0, error := none, now := 10 } : UpsertArgs),
            { path := some "test_5.txt", status := "FAILED", lines := none,
              word_count := none, error := some "gone", now := 11 },
            { path := some "test_1.txt", status := "FAILED", lines := none,
              word_count := none, error := some "gone", now := 12 }],
        u.status = "OK" ∨ u.status = "FAILED") ∧
    (stats (applyUpserts db0
        [({ path := some "test_1.txt", status := "OK", lines := some 2,
            word_count := some 0, error := none, now := 10 } : UpsertArgs),
         { path := some "test_5.txt", status := "FAILED", lines := none,
           word_count := none, error := some "gone", now := 11 },
         { path := some "test_1.txt", status := "FAILED", lines := none,
           word_count := none, error := some "gone", now := 12 }])).total =
      (stats (applyUpserts db0
        [({ path := some "test_1.txt", status := "OK", lines := some 2,
            word_count := some 0, error := none, now := 10 } : UpsertArgs),
         { path := some "test_5.txt", status := "FAILED", lines := none,
           word_count := none, error := some "gone", now := 11 },
         { path := some "test_1.txt", status := "FAILED", lines := none,
           word_count := none, error := some "gone", now := 12 }])).ok +
        (stats (applyUpserts db0
          [({ path := some "test_1.txt", status := "OK", lines := some 2,
              word_count := some 0, error := none, now := 10 } : UpsertArgs),
           { path := some "test_5.txt", status := "FAILED", lines := none,
             word_count := none, error := some "gone", now := 11 },
           { path := some "test_1.txt", status := "FAILED", lines := none,
             word_count := none, error := some "gone", now := 12 }])).failed :=
  ⟨by decide,
    stats_total_eq_ok_add_failed
      [({ path := some "test_1.txt", status := "OK", lines := some 2,
          word_count := some 0, error := none, now := 10 } : UpsertArgs),
       { path := some "test_5.txt", status := "FAILED", lines := none,
         word_count := none, error := some "gone", now := 11 },
       { path := some "test_1.txt", status := "FAILED", lines := none,
         word_count := none, error := some "gone", now := 12 }]
      (by decide)⟩

end WatchdogMain
